import Mathlib

/-!
Shallow embedding of the HR attrition dashboard (`src/app.py`):
the dataset loader, the sidebar filter engine, the empty-result gate,
and the aggregation transforms (group-by-mean attrition rates, the
YearsAtCompany binning, the two-key mean-income aggregation and the
scalar KPIs), together with theorems about them.
-/

namespace EAdash

/-- One CSV row of `EA.csv` as read by `pd.read_csv` (the columns the
dashboard touches; see spec §3).  Categorical fields are strings, ordinal
and numeric fields are integers. -/
structure RawRow where
  Attrition : String
  Department : String
  JobRole : String
  EducationField : String
  Gender : String
  MaritalStatus : String
  BusinessTravel : String
  OverTime : String
  Education : Int
  JobLevel : Int
  EnvironmentSatisfaction : Int
  JobSatisfaction : Int
  RelationshipSatisfaction : Int
  WorkLifeBalance : Int
  PerformanceRating : Int
  JobInvolvement : Int
  Age : Int
  MonthlyIncome : Int
  YearsAtCompany : Int
  YearsInCurrentRole : Int
  NumCompaniesWorked : Int
  YearsSinceLastPromotion : Int
deriving DecidableEq, Repr

/-- A loaded row: the raw row plus the derived `Attrition_Binary` column
added by `load_data` (app.py line 22). -/
structure Row extends RawRow where
  Attrition_Binary : Nat
deriving DecidableEq, Repr

/-- `load_data` (app.py lines 17-23): parse the table and add the column
`Attrition_Binary = 1 if Attrition == 'Yes' else 0` to every row. -/
def load_data (t : List RawRow) : List Row :=
  t.map (fun r => { toRawRow := r,
                    Attrition_Binary := if r.Attrition = "Yes" then 1 else 0 })

/-- The sidebar filter state (app.py lines 53-96): a selected set for each
categorical dimension and an inclusive range for MonthlyIncome and Age. -/
structure FilterCriteria where
  selected_attrition : List String
  selected_department : List String
  selected_job_role : List String
  selected_education_field : List String
  income_range : Int × Int
  age_range : Int × Int
deriving DecidableEq, Repr

/-- The row-level predicate of the filter expression at app.py lines 99-108:
membership (`isin`) in each selected set and the two inclusive ranges,
conjoined. -/
def passesFilters (c : FilterCriteria) (r : Row) : Prop :=
  r.Attrition ∈ c.selected_attrition ∧
  r.Department ∈ c.selected_department ∧
  r.JobRole ∈ c.selected_job_role ∧
  r.EducationField ∈ c.selected_education_field ∧
  c.income_range.1 ≤ r.MonthlyIncome ∧ r.MonthlyIncome ≤ c.income_range.2 ∧
  c.age_range.1 ≤ r.Age ∧ r.Age ≤ c.age_range.2

instance (c : FilterCriteria) (r : Row) : Decidable (passesFilters c r) := by
  unfold passesFilters; infer_instance

/-- `filtered_df` (app.py lines 99-108): the rows of the table satisfying
the conjunction of all filter predicates. -/
def filtered_df (t : List Row) (c : FilterCriteria) : List Row :=
  t.filter (fun r => decide (passesFilters c r))

/-! ### Aggregation primitives -/

/-- The mean of a list of rationals, as pandas `.mean()` computes it on a
column: sum divided by length. -/
def meanQ (xs : List ℚ) : ℚ := xs.sum / xs.length

/-- The rows of `v` whose key under `key` equals `k` — one group of a
pandas `groupby`. -/
def groupRows {α κ : Type} [DecidableEq κ] (key : α → κ) (v : List α) (k : κ) :
    List α :=
  v.filter (fun a => decide (key a = k))

/-- `v.groupby(key)[val].mean()`: for each distinct key occurring in `v`,
the mean of `val` over that key's group. -/
def groupMean {α κ : Type} [DecidableEq κ] (key : α → κ) (val : α → ℚ)
    (v : List α) : List (κ × ℚ) :=
  ((v.map key).dedup).map (fun k => (k, meanQ ((groupRows key v k).map val)))

/-- The rate-by-dimension transform (e.g. app.py lines 163-164):
`groupby(field)['Attrition_Binary'].mean()` followed by the `* 100`
rescaling into `Attrition_Rate`. -/
def rateBy {κ : Type} [DecidableEq κ] (f : Row → κ) (v : List Row) :
    List (κ × ℚ) :=
  (groupMean f (fun r => (r.Attrition_Binary : ℚ)) v).map
    (fun p => (p.1, p.2 * 100))

/-- The scalar KPI outputs of the Overview tab (app.py lines 127-146).
`attritionRate = none` models the "N/A" branch taken when the view has no
rows. -/
structure KPIResult where
  totalEmployees : Nat
  attritionCount : Nat
  attritionRate : Option ℚ
deriving DecidableEq, Repr

/-- The scalar KPI computation (app.py lines 127-146): total row count,
count of rows with `Attrition == 'Yes'`, and the rate
`(attrition_count / total_employees) * 100` guarded by `total_employees > 0`. -/
def scalarKPIs (v : List Row) : KPIResult :=
  let attrition_count := (v.filter (fun r => decide (r.Attrition = "Yes"))).length
  let total_employees := v.length
  { totalEmployees := total_employees
    attritionCount := attrition_count
    attritionRate :=
      if total_employees > 0 then
        some (((attrition_count : ℚ) / (total_employees : ℚ)) * 100)
      else none }

/-! ### The YearsAtCompany binning transform (app.py lines 313-317) -/

/-- The bin edges of app.py line 313. -/
def bins : List Int := [0, 1, 3, 5, 10, 15, 20, 30, 40]

/-- The bin labels of app.py line 314. -/
def binLabels : List String :=
  ["<1", "1-3", "3-5", "5-10", "10-15", "15-20", "20-30", "30+"]

/-- The `(lower, upper, label)` triples that `pd.cut(bins, labels,
right=False)` induces: consecutive edge pairs, half-open `[lower, upper)`. -/
def cutIntervals : List (Int × Int × String) :=
  ((bins.zip bins.tail).zip binLabels).map (fun p => (p.1.1, p.1.2, p.2))

/-- Locate the first interval containing `y` (the intervals are disjoint,
so at most one does). -/
def cutFind : List (Int × Int × String) → Int → Option String
  | [], _ => none
  | (lo, hi, lab) :: rest, y =>
      if lo ≤ y ∧ y < hi then some lab else cutFind rest y

/-- `pd.cut(x, bins=bins, labels=labels, right=False)` applied to one
value: the label of the half-open bin containing it, or `none` (pandas
NaN) when no bin does. -/
def pdCutYears (y : Int) : Option String := cutFind cutIntervals y

/-- The `YearsAtCompany_Binned` column that app.py line 315 assigns:
`pd.cut` applied row-wise to the `YearsAtCompany` column. -/
def binColumnOf (rows : List Row) : List (Option String) :=
  rows.map (fun r => pdCutYears r.YearsAtCompany)

/-- Pairs `(bin label, row)` for the rows whose bin value is non-NaN —
exactly the rows that `groupby('YearsAtCompany_Binned')` groups (pandas
drops NaN keys). -/
def binnedPairs (rows : List Row) (col : List (Option String)) :
    List (String × Row) :=
  (col.zip rows).filterMap (fun p => p.1.map (fun lab => (lab, p.2)))

/-- The grouped attrition rate over the binned column (app.py lines
316-317): group the labelled rows by label, take the mean of
`Attrition_Binary` and rescale by 100. -/
def binnedRate (ps : List (String × Row)) : List (String × ℚ) :=
  (groupMean Prod.fst (fun p => (p.2.Attrition_Binary : ℚ)) ps).map
    (fun p => (p.1, p.2 * 100))

/-! ### The dataframe state and the transform family -/

/-- The state of the `filtered_df` dataframe object: its rows, plus the
`YearsAtCompany_Binned` column once (and only once) app.py line 315 has
assigned it.  `binnedColumn = none` models the column being absent. -/
structure Frame where
  rows : List Row
  binnedColumn : Option (List (Option String))
deriving DecidableEq, Repr

/-- A grouping key: categorical fields group by a string, ordinal and
numeric fields by an integer. -/
abbrev GroupKey := String ⊕ Int

/-- One output of an aggregation transform. -/
inductive AggResult where
  | rates : List (GroupKey × ℚ) → AggResult
  | binRates : List (String × ℚ) → AggResult
  | incomeByEduAttrition : List ((Int × String) × ℚ) → AggResult
  | kpis : KPIResult → AggResult
deriving DecidableEq, Repr

/-- The aggregation transforms the dashboard runs over `filtered_df`:
the eighteen rate-by-dimension instances (parameterised by the grouping
field, as the spec's §9 note suggests), the YearsAtCompany binning
transform, the (Education, Attrition) mean-income aggregation, and the
scalar KPIs. -/
inductive TransformId where
  | rateByDim : (Row → GroupKey) → TransformId
  | binnedYearsRate : TransformId
  | avgIncomeEduAttrition : TransformId
  | kpiTransform : TransformId

/-- Run one transform against the dataframe state, returning the state
afterwards and the aggregation output.  Only `binnedYearsRate` touches the
state: app.py line 315 assigns the `YearsAtCompany_Binned` column on
`filtered_df` itself before grouping by it. -/
def runTransform : TransformId → Frame → Frame × AggResult
  | .rateByDim f, fr => (fr, .rates (rateBy f fr.rows))
  | .binnedYearsRate, fr =>
      let col := binColumnOf fr.rows
      ({ fr with binnedColumn := some col },
       .binRates (binnedRate (binnedPairs fr.rows col)))
  | .avgIncomeEduAttrition, fr =>
      (fr, .incomeByEduAttrition
        (groupMean (fun r => (r.Education, r.Attrition))
          (fun r => (r.MonthlyIncome : ℚ)) fr.rows))
  | .kpiTransform, fr => (fr, .kpis (scalarKPIs fr.rows))

/-- The transforms of the five tabs in source order: the KPIs and charts
2-3 of the Overview tab, charts 5-8 of the Demographics tab, charts 10-17
of the Job Metrics tab (chart 14 being the binning transform), and charts
18-24 of the Satisfaction tab. -/
def allTransforms : List TransformId :=
  [ .kpiTransform,
    .rateByDim (fun r => .inl r.Department),
    .rateByDim (fun r => .inl r.JobRole),
    .rateByDim (fun r => .inl r.Gender),
    .rateByDim (fun r => .inl r.MaritalStatus),
    .rateByDim (fun r => .inl r.EducationField),
    .rateByDim (fun r => .inr r.Education),
    .rateByDim (fun r => .inr r.JobLevel),
    .rateByDim (fun r => .inl r.BusinessTravel),
    .rateByDim (fun r => .inl r.OverTime),
    .binnedYearsRate,
    .rateByDim (fun r => .inr r.YearsInCurrentRole),
    .rateByDim (fun r => .inr r.NumCompaniesWorked),
    .rateByDim (fun r => .inr r.YearsSinceLastPromotion),
    .rateByDim (fun r => .inr r.EnvironmentSatisfaction),
    .rateByDim (fun r => .inr r.JobSatisfaction),
    .rateByDim (fun r => .inr r.RelationshipSatisfaction),
    .rateByDim (fun r => .inr r.WorkLifeBalance),
    .rateByDim (fun r => .inr r.PerformanceRating),
    .rateByDim (fun r => .inr r.JobInvolvement),
    .avgIncomeEduAttrition ]

/-- Run a list of transforms in sequence, threading the dataframe state,
and collect their outputs. -/
def runAll : Frame → List TransformId → Frame × List AggResult
  | fr, [] => (fr, [])
  | fr, t :: ts =>
      let step := runTransform t fr
      let rest := runAll step.1 ts
      (rest.1, step.2 :: rest.2)

/-- The dataframe states each transform of the sequence is invoked on. -/
def framesSeen : Frame → List TransformId → List Frame
  | _, [] => []
  | fr, t :: ts => fr :: framesSeen (runTransform t fr).1 ts

/-- Outcome of one render pass of the script. -/
inductive RenderOutcome where
  | emptyResultWarning : RenderOutcome
  | rendered : List AggResult → RenderOutcome
deriving Repr

/-- One pass of the script body (app.py lines 99-452): build
`filtered_df`; if it is empty show the warning and stop (lines 110-113),
otherwise run every aggregation transform of the five tabs. -/
def renderPass (t : List RawRow) (c : FilterCriteria) : RenderOutcome :=
  let fv := filtered_df (load_data t) c
  if fv.isEmpty then .emptyResultWarning
  else .rendered (runAll { rows := fv, binnedColumn := none } allTransforms).2

/-! ### Concrete sample data (used by the examples and witnesses) -/

/-- A baseline raw row. -/
def baseRaw : RawRow :=
  { Attrition := "No", Department := "Sales", JobRole := "Manager",
    EducationField := "Medical", Gender := "Male", MaritalStatus := "Single",
    BusinessTravel := "Travel_Rarely", OverTime := "No",
    Education := 3, JobLevel := 2, EnvironmentSatisfaction := 3,
    JobSatisfaction := 3, RelationshipSatisfaction := 3, WorkLifeBalance := 3,
    PerformanceRating := 3, JobInvolvement := 3, Age := 30,
    MonthlyIncome := 5000, YearsAtCompany := 5, YearsInCurrentRole := 2,
    NumCompaniesWorked := 1, YearsSinceLastPromotion := 0 }

/-- The spec §8 three-row example table:
(Dept=Sales, Attrition=Yes), (Dept=Sales, Attrition=No),
(Dept=RnD, Attrition=Yes). -/
def exampleTable : List RawRow :=
  [ { baseRaw with Attrition := "Yes" },
    baseRaw,
    { baseRaw with Attrition := "Yes", Department := "RnD" } ]

/-- The three-row example table after loading. -/
def exampleView : List Row := load_data exampleTable

/-- Criteria that select every value occurring in `exampleTable` and span
its full Age and MonthlyIncome ranges. -/
def exampleCriteria : FilterCriteria :=
  { selected_attrition := ["Yes", "No"],
    selected_department := ["Sales", "RnD"],
    selected_job_role := ["Manager"],
    selected_education_field := ["Medical"],
    income_range := (5000, 5000),
    age_range := (30, 30) }

/-- Criteria identical to `exampleCriteria` except that the Department
selected set is empty. -/
def emptyDeptCriteria : FilterCriteria :=
  { exampleCriteria with selected_department := [] }

/-- The first loaded example row: Sales, Attrition Yes. -/
def exRowYesSales : Row :=
  { toRawRow := { baseRaw with Attrition := "Yes" }, Attrition_Binary := 1 }

/-- The second loaded example row: Sales, Attrition No. -/
def exRowNoSales : Row := { toRawRow := baseRaw, Attrition_Binary := 0 }

/-- The third loaded example row: RnD, Attrition Yes. -/
def exRowYesRnD : Row :=
  { toRawRow := { baseRaw with Attrition := "Yes", Department := "RnD" },
    Attrition_Binary := 1 }

/-- A raw row whose Attrition value is the lowercase string "yes" — a
malformed value the loader does not validate. -/
def oddRaw : RawRow := { baseRaw with Attrition := "yes" }

/-- `oddRaw` after loading: `Attrition_Binary` is 0 because the comparison
at app.py line 22 is with the exact string "Yes". -/
def oddRow : Row := { toRawRow := oddRaw, Attrition_Binary := 0 }

/-- A loaded row whose YearsAtCompany value, 40, lies outside all eight
bins of the binning transform. -/
def outRangeRow : Row :=
  { toRawRow := { baseRaw with Attrition := "Yes", YearsAtCompany := 40 },
    Attrition_Binary := 1 }

/-- The example view as the initial dataframe state (no binned column). -/
def exampleFrame : Frame := { rows := exampleView, binnedColumn := none }

/-! ### Helper lemmas -/

theorem mem_filtered_df {t : List Row} {c : FilterCriteria} {r : Row} :
    r ∈ filtered_df t c ↔ r ∈ t ∧ passesFilters c r := by
  simp [filtered_df]

theorem load_data_length (t : List RawRow) : (load_data t).length = t.length := by
  simp [load_data]

theorem attrition_binary_of_mem_load {t : List RawRow} {r : Row}
    (h : r ∈ load_data t) :
    r.Attrition_Binary = if r.Attrition = "Yes" then 1 else 0 := by
  simp only [load_data, List.mem_map] at h
  obtain ⟨raw, -, rfl⟩ := h
  rfl

theorem sum_map_indicator : ∀ v : List Row,
    (∀ r ∈ v, r.Attrition_Binary = if r.Attrition = "Yes" then 1 else 0) →
    (v.map (fun r => (r.Attrition_Binary : ℚ))).sum
      = ((v.filter (fun r => decide (r.Attrition = "Yes"))).length : ℚ)
  | [], _ => by simp
  | r :: v, h => by
    have hr := h r (List.mem_cons_self r v)
    have ih := sum_map_indicator v (fun x hx => h x (List.mem_cons_of_mem r hx))
    by_cases hy : r.Attrition = "Yes" <;>
      simp [List.filter_cons, hy, hr, ih, add_comm]

theorem sum_map_ite_eq_zero {κ : Type} [DecidableEq κ] (a : κ) (q : ℚ) :
    ∀ ks : List κ, a ∉ ks → (ks.map (fun k => if a = k then q else 0)).sum = 0
  | [], _ => rfl
  | k :: ks, h => by
    have h1 : a ≠ k := fun e => h (e ▸ List.mem_cons_self k ks)
    have h2 := sum_map_ite_eq_zero a q ks (fun e => h (List.mem_cons_of_mem k e))
    simp [h1, h2]

theorem sum_map_ite_eq {κ : Type} [DecidableEq κ] (a : κ) (q : ℚ) :
    ∀ ks : List κ, ks.Nodup → a ∈ ks →
      (ks.map (fun k => if a = k then q else 0)).sum = q
  | [], _, hmem => absurd hmem (List.not_mem_nil a)
  | k :: ks, hnd, hmem => by
    rcases List.mem_cons.mp hmem with rfl | hmem2
    · simp [sum_map_ite_eq_zero a q ks (List.nodup_cons.mp hnd).1]
    · have h1 : a ≠ k := fun e => (List.nodup_cons.mp hnd).1 (e ▸ hmem2)
      have h2 := sum_map_ite_eq a q ks (List.nodup_cons.mp hnd).2 hmem2
      simp [h1, h2]

theorem sum_groupRows_partition {α κ : Type} [DecidableEq κ] (f : α → κ)
    (g : α → ℚ) :
    ∀ (v : List α) (ks : List κ), ks.Nodup → (∀ a ∈ v, f a ∈ ks) →
      (ks.map (fun k => ((groupRows f v k).map g).sum)).sum = (v.map g).sum
  | [], ks, _, _ => by simp [groupRows]
  | a :: v, ks, hnd, hcov => by
    have ih := sum_groupRows_partition f g v ks hnd
      (fun x hx => hcov x (List.mem_cons_of_mem a hx))
    have hstep : ∀ k : κ,
        ((groupRows f (a :: v) k).map g).sum
          = (if f a = k then g a else 0) + ((groupRows f v k).map g).sum := by
      intro k
      by_cases hk : f a = k <;> simp [groupRows, List.filter_cons, hk]
    simp only [hstep]
    rw [List.sum_map_add, ih,
      sum_map_ite_eq (f a) (g a) ks hnd (hcov a (List.mem_cons_self a v))]
    simp

theorem groupRows_ne_nil {α κ : Type} [DecidableEq κ] {f : α → κ} {v : List α}
    {k : κ} (h : k ∈ (v.map f).dedup) : groupRows f v k ≠ [] := by
  rw [List.mem_dedup, List.mem_map] at h
  obtain ⟨a, ha, rfl⟩ := h
  intro hnil
  have hmem : a ∈ groupRows f v (f a) := by simp [groupRows, ha]
  rw [hnil] at hmem
  exact List.not_mem_nil a hmem

theorem meanQ_nonneg {xs : List ℚ} (h : ∀ x ∈ xs, 0 ≤ x) : 0 ≤ meanQ xs :=
  div_nonneg (List.sum_nonneg h) (Nat.cast_nonneg xs.length)

theorem meanQ_le_one {xs : List ℚ} (hne : xs ≠ []) (h : ∀ x ∈ xs, x ≤ 1) :
    meanQ xs ≤ 1 := by
  have hlen : 0 < (xs.length : ℚ) := by
    exact_mod_cast List.length_pos.mpr hne
  rw [meanQ, div_le_one hlen]
  have hb := List.sum_le_card_nsmul xs 1 h
  simpa using hb

theorem runTransform_rows (tr : TransformId) (fr : Frame) :
    (runTransform tr fr).1.rows = fr.rows := by
  cases tr <;> rfl

theorem framesSeen_rows : ∀ (ts : List TransformId) (fr : Frame),
    ∀ fr2 ∈ framesSeen fr ts, fr2.rows = fr.rows
  | [], _, _, h => absurd h (List.not_mem_nil _)
  | t :: ts, fr, fr2, h => by
    rcases List.mem_cons.mp h with rfl | h2
    · rfl
    · have := framesSeen_rows ts (runTransform t fr).1 fr2 h2
      rw [this, runTransform_rows]

theorem binnedPairs_binColumnOf : ∀ rows : List Row,
    binnedPairs rows (binColumnOf rows)
      = rows.filterMap
          (fun r => (pdCutYears r.YearsAtCompany).map (fun lab => (lab, r)))
  | [] => rfl
  | r :: rows => by
    have ih := binnedPairs_binColumnOf rows
    simp only [binnedPairs, binColumnOf, List.map_cons, List.zip_cons_cons,
      List.filterMap_cons] at ih ⊢
    cases pdCutYears r.YearsAtCompany <;> simp [ih]

/-! ### Claim theorems -/

/-- C1: for every dataset table and every FilterCriteria, a record is in
the FilteredView iff each of its categorical values is a member of the
corresponding selected set and its MonthlyIncome and Age lie in the
inclusive ranges; in particular an empty selected set for any dimension
makes the FilteredView empty, not "all records". -/
theorem filtered_df_mem_iff (t : List Row) (c : FilterCriteria) :
    (∀ r : Row, r ∈ filtered_df t c ↔
      (r ∈ t ∧
       r.Attrition ∈ c.selected_attrition ∧
       r.Department ∈ c.selected_department ∧
       r.JobRole ∈ c.selected_job_role ∧
       r.EducationField ∈ c.selected_education_field ∧
       c.income_range.1 ≤ r.MonthlyIncome ∧ r.MonthlyIncome ≤ c.income_range.2 ∧
       c.age_range.1 ≤ r.Age ∧ r.Age ≤ c.age_range.2)) ∧
    ((c.selected_attrition = [] ∨ c.selected_department = [] ∨
      c.selected_job_role = [] ∨ c.selected_education_field = []) →
      filtered_df t c = []) := by
  constructor
  · intro r
    rw [mem_filtered_df]
    unfold passesFilters
    tauto
  · intro hsel
    rw [filtered_df, List.filter_eq_nil_iff]
    intro r _
    simp only [decide_eq_true_eq]
    unfold passesFilters
    rcases hsel with h | h | h | h <;> rw [h] <;>
      simp [List.not_mem_nil]

/-- C1 witness: with the Department selected set empty the example view
filters to the empty list. -/
theorem filtered_df_mem_iff_witness :
    filtered_df exampleView emptyDeptCriteria = [] :=
  (filtered_df_mem_iff exampleView emptyDeptCriteria).2 (Or.inr (Or.inl rfl))

/-- C2: the FilteredView never has more rows than the full dataset, and it
has exactly as many when the criteria select every value occurring in the
dataset and the ranges cover every occurring MonthlyIncome and Age. -/
theorem filtered_df_length_le (t : List RawRow) (c : FilterCriteria) :
    (filtered_df (load_data t) c).length ≤ t.length ∧
    ((∀ r ∈ load_data t, r.Attrition ∈ c.selected_attrition) →
     (∀ r ∈ load_data t, r.Department ∈ c.selected_department) →
     (∀ r ∈ load_data t, r.JobRole ∈ c.selected_job_role) →
     (∀ r ∈ load_data t, r.EducationField ∈ c.selected_education_field) →
     (∀ r ∈ load_data t,
        c.income_range.1 ≤ r.MonthlyIncome ∧ r.MonthlyIncome ≤ c.income_range.2) →
     (∀ r ∈ load_data t, c.age_range.1 ≤ r.Age ∧ r.Age ≤ c.age_range.2) →
      (filtered_df (load_data t) c).length = t.length) := by
  constructor
  · calc (filtered_df (load_data t) c).length
        ≤ (load_data t).length := List.length_filter_le _ _
      _ = t.length := load_data_length t
  · intro h1 h2 h3 h4 h5 h6
    have hall : filtered_df (load_data t) c = load_data t := by
      rw [filtered_df, List.filter_eq_self]
      intro r hr
      simp only [decide_eq_true_eq]
      exact ⟨h1 r hr, h2 r hr, h3 r hr, h4 r hr,
        (h5 r hr).1, (h5 r hr).2, (h6 r hr).1, (h6 r hr).2⟩
    rw [hall, load_data_length]

/-- C2 witness: on the three-row example table with all-selecting criteria
the FilteredView has exactly the table's three rows. -/
theorem filtered_df_length_le_witness :
    (filtered_df (load_data exampleTable) exampleCriteria).length
      = exampleTable.length :=
  (filtered_df_length_le exampleTable exampleCriteria).2
    (by decide) (by decide) (by decide) (by decide) (by decide) (by decide)

/-- C7: the scalar KPI computation returns the view's row count, the count
of rows with Attrition = "Yes", and the rate (count/total)·100 when the
total is positive; when the total is zero it returns the "N/A" sentinel
(`none`) instead of dividing. -/
theorem scalarKPIs_spec (v : List Row) :
    (scalarKPIs v).totalEmployees = v.length ∧
    (scalarKPIs v).attritionCount
      = (v.filter (fun r => decide (r.Attrition = "Yes"))).length ∧
    (0 < v.length →
      (scalarKPIs v).attritionRate
        = some ((((v.filter (fun r => decide (r.Attrition = "Yes"))).length : ℚ)
                  / (v.length : ℚ)) * 100)) ∧
    (v.length = 0 → (scalarKPIs v).attritionRate = none) := by
  refine ⟨rfl, rfl, fun hpos => ?_, fun hzero => ?_⟩
  · simp [scalarKPIs, hpos]
  · simp [scalarKPIs, hzero]

/-- C7 witness: the KPI rate branch at the non-empty example view, and the
"N/A" branch at the empty view. -/
theorem scalarKPIs_spec_witness :
    (0 < exampleView.length ∧
      (scalarKPIs exampleView).attritionRate
        = some ((((exampleView.filter
                    (fun r => decide (r.Attrition = "Yes"))).length : ℚ)
                  / (exampleView.length : ℚ)) * 100)) ∧
    (scalarKPIs ([] : List Row)).attritionRate = none :=
  ⟨⟨by decide, (scalarKPIs_spec exampleView).2.2.1 (by decide)⟩,
   (scalarKPIs_spec ([] : List Row)).2.2.2 rfl⟩

/-- C10: the loader keeps every raw row unchanged (no validation of the
Attrition field) and derives `Attrition_Binary` as 1 exactly on rows whose
Attrition is the exact string "Yes" and 0 on every other row, so the
column is always in {0, 1}. -/
theorem load_data_attrition_binary (t : List RawRow) :
    ((load_data t).map (fun r => r.toRawRow) = t) ∧
    (∀ r ∈ load_data t,
      (r.Attrition_Binary = 1 ↔ r.Attrition = "Yes") ∧
      (r.Attrition_Binary = 0 ↔ r.Attrition ≠ "Yes") ∧
      r.Attrition_Binary ≤ 1) := by
  constructor
  · simp [load_data, List.map_map, Function.comp_def]
  · intro r hr
    have hb := attrition_binary_of_mem_load hr
    by_cases hy : r.Attrition = "Yes" <;> simp [hb, hy]

/-- C10 witness: the lowercase value "yes" is kept by the loader but maps
to `Attrition_Binary = 0`. -/
theorem load_data_attrition_binary_witness :
    oddRow ∈ load_data [oddRaw] ∧
    ((oddRow.Attrition_Binary = 1 ↔ oddRow.Attrition = "Yes") ∧
     (oddRow.Attrition_Binary = 0 ↔ oddRow.Attrition ≠ "Yes") ∧
     oddRow.Attrition_Binary ≤ 1) :=
  ⟨by decide, (load_data_attrition_binary [oddRaw]).2 oddRow (by decide)⟩

/-- C3: a render pass ends in the EmptyResultWarning exactly when the
FilteredView is empty, and otherwise every aggregation transform of the
pass is invoked on a dataframe state whose rows are exactly the
FilteredView's rows — so no transform ever runs on a zero-row view. -/
theorem renderPass_empty_gate (t : List RawRow) (c : FilterCriteria) :
    (renderPass t c = RenderOutcome.emptyResultWarning ↔
      filtered_df (load_data t) c = []) ∧
    (∀ fr ∈ framesSeen { rows := filtered_df (load_data t) c,
                         binnedColumn := none } allTransforms,
      fr.rows = filtered_df (load_data t) c) := by
  constructor
  · unfold renderPass
    by_cases h : (filtered_df (load_data t) c).isEmpty
    · simp only [h, if_true]
      simpa [List.isEmpty_iff] using h
    · simp only [h, if_false]
      constructor
      · intro hcon
        exact absurd hcon (by simp)
      · intro hnil
        rw [List.isEmpty_iff] at h
        exact absurd hnil h
  · exact framesSeen_rows allTransforms _

/-- C3 witness: the empty-Department criteria drive the render pass into
the warning outcome, and the first frame of a non-empty pass carries the
FilteredView's rows. -/
theorem renderPass_empty_gate_witness :
    renderPass exampleTable emptyDeptCriteria
      = RenderOutcome.emptyResultWarning ∧
    Frame.rows { rows := filtered_df (load_data exampleTable) exampleCriteria,
                 binnedColumn := none }
      = filtered_df (load_data exampleTable) exampleCriteria :=
  ⟨(renderPass_empty_gate exampleTable emptyDeptCriteria).1.mpr (by decide),
   (renderPass_empty_gate exampleTable exampleCriteria).2 _
     (by simp [framesSeen, allTransforms])⟩

/-- C8 counterexample: the binning transform does mutate the FilteredView:
running it on the example view adds the `YearsAtCompany_Binned` column, so
the dataframe state afterwards differs from the state before. -/
theorem binning_mutates_view :
    (runTransform TransformId.binnedYearsRate exampleFrame).1 ≠ exampleFrame := by
  decide

/-- C8 amended: no aggregation transform changes the rows of the
FilteredView; every transform except the binning one (the
rate-by-dimension instances, the two-key mean-income aggregation and the
scalar KPIs) leaves the dataframe state entirely unchanged, and the
binning transform's only change to the state is assigning the derived
`YearsAtCompany_Binned` column computed from the view's rows. -/
theorem runTransform_preserves_rows (tr : TransformId) (fr : Frame) :
    (runTransform tr fr).1.rows = fr.rows ∧
    (∀ f : Row → GroupKey, (runTransform (.rateByDim f) fr).1 = fr) ∧
    (runTransform .avgIncomeEduAttrition fr).1 = fr ∧
    (runTransform .kpiTransform fr).1 = fr ∧
    (runTransform .binnedYearsRate fr).1
      = { fr with binnedColumn := some (binColumnOf fr.rows) } :=
  ⟨runTransform_rows tr fr, fun _ => rfl, rfl, rfl, rfl⟩

/-- C9: every aggregation transform is idempotent over the dataframe
state: running it a second time on the state left by the first run yields
the identical state and the identical aggregation output. -/
theorem runTransform_idempotent (tr : TransformId) (fr : Frame) :
    runTransform tr ((runTransform tr fr).1) = runTransform tr fr := by
  cases tr <;> rfl

/-- C4: for every view and grouping field the rate-by-dimension transform
produces exactly one entry per distinct field value, pairing it with the
mean of `Attrition_Binary` over that value's rows times 100; on the
three-row example grouped by Department it yields Sales ↦ 50 and
RnD ↦ 100. -/
theorem rateBy_spec :
    (∀ {κ : Type} [DecidableEq κ] (f : Row → κ) (v : List Row),
      (rateBy f v).map Prod.fst = (v.map f).dedup ∧
      ∀ k ∈ (v.map f).dedup,
        (k, meanQ ((groupRows f v k).map (fun r => (r.Attrition_Binary : ℚ)))
              * 100)
          ∈ rateBy f v) ∧
    rateBy (fun r => r.Department) exampleView
      = [("Sales", 50), ("RnD", 100)] := by
  constructor
  · intro κ _ f v
    constructor
    · simp [rateBy, groupMean, List.map_map, Function.comp_def]
    · intro k hk
      rw [rateBy, groupMean, List.map_map]
      exact List.mem_map_of_mem _ hk
  · have hd : ((exampleView.map (fun r => r.Department)).dedup)
        = ["Sales", "RnD"] := by decide
    have hg1 : groupRows (fun r => r.Department) exampleView "Sales"
        = [exRowYesSales, exRowNoSales] := by decide
    have hg2 : groupRows (fun r => r.Department) exampleView "RnD"
        = [exRowYesRnD] := by decide
    simp only [rateBy, groupMean, hd, List.map_cons, List.map_nil, hg1, hg2]
    norm_num [meanQ, exRowYesSales, exRowNoSales, exRowYesRnD]

/-- C4 witness: "Sales" is a distinct Department value of the example view
and the transform maps it to its group's mean attrition times 100. -/
theorem rateBy_spec_witness :
    "Sales" ∈ (exampleView.map (fun r => r.Department)).dedup ∧
    ("Sales",
      meanQ ((groupRows (fun r => r.Department) exampleView "Sales").map
          (fun r => (r.Attrition_Binary : ℚ))) * 100)
      ∈ rateBy (fun r => r.Department) exampleView :=
  ⟨by decide,
   (rateBy_spec.1 (fun r => r.Department) exampleView).2 "Sales" (by decide)⟩

/-- C5: over a non-empty FilteredView every rate-by-dimension output value
lies in [0, 100], and the weighted mean of the group rates (group size
times group rate, summed, divided by the total row count) is exactly the
overall attrition rate the KPI computation reports. -/
theorem rateBy_bounds_weighted {κ : Type} [DecidableEq κ] (f : Row → κ)
    (t : List RawRow) (c : FilterCriteria)
    (hne : filtered_df (load_data t) c ≠ []) :
    (∀ p ∈ rateBy f (filtered_df (load_data t) c), 0 ≤ p.2 ∧ p.2 ≤ 100) ∧
    (scalarKPIs (filtered_df (load_data t) c)).attritionRate
      = some
          ((((rateBy f (filtered_df (load_data t) c)).map
              (fun p =>
                ((groupRows f (filtered_df (load_data t) c) p.1).length : ℚ)
                  * p.2)).sum)
            / ((filtered_df (load_data t) c).length : ℚ)) := by
  set v := filtered_df (load_data t) c with hv
  have hbin : ∀ r ∈ v, r.Attrition_Binary = if r.Attrition = "Yes" then 1 else 0 :=
    fun r hr => attrition_binary_of_mem_load (mem_filtered_df.mp hr).1
  have hble : ∀ r ∈ v, (r.Attrition_Binary : ℚ) ≤ 1 := by
    intro r hr
    rw [hbin r hr]
    by_cases h : r.Attrition = "Yes" <;> simp [h]
  constructor
  · intro p hp
    rw [rateBy, List.mem_map] at hp
    obtain ⟨q, hq, rfl⟩ := hp
    rw [groupMean, List.mem_map] at hq
    obtain ⟨k, hk, rfl⟩ := hq
    have hgsub : ∀ r ∈ groupRows f v k, r ∈ v :=
      fun r hr => (List.mem_filter.mp hr).1
    have hne2 : (groupRows f v k).map (fun r => (r.Attrition_Binary : ℚ)) ≠ [] := by
      simpa using groupRows_ne_nil hk
    have h0 : 0 ≤ meanQ ((groupRows f v k).map fun r => (r.Attrition_Binary : ℚ)) := by
      refine meanQ_nonneg ?_
      intro x hx
      rw [List.mem_map] at hx
      obtain ⟨r, -, rfl⟩ := hx
      exact Nat.cast_nonneg r.Attrition_Binary
    have h1 : meanQ ((groupRows f v k).map fun r => (r.Attrition_Binary : ℚ)) ≤ 1 := by
      refine meanQ_le_one hne2 ?_
      intro x hx
      rw [List.mem_map] at hx
      obtain ⟨r, hr, rfl⟩ := hx
      exact hble r (hgsub r hr)
    refine ⟨mul_nonneg h0 (by norm_num), ?_⟩
    calc meanQ ((groupRows f v k).map fun r => (r.Attrition_Binary : ℚ)) * 100
        ≤ 1 * 100 := mul_le_mul_of_nonneg_right h1 (by norm_num)
      _ = 100 := by norm_num
  · have hlen : 0 < v.length := List.length_pos.mpr hne
    have hcount := sum_map_indicator v hbin
    have hmap : (rateBy f v).map
          (fun p => ((groupRows f v p.1).length : ℚ) * p.2)
        = ((v.map f).dedup).map
            (fun k => ((groupRows f v k).length : ℚ)
              * (meanQ ((groupRows f v k).map fun r => (r.Attrition_Binary : ℚ))
                  * 100)) := by
      rw [rateBy, groupMean, List.map_map, List.map_map]
      rfl
    have hterm : ∀ k ∈ (v.map f).dedup,
        ((groupRows f v k).length : ℚ)
            * (meanQ ((groupRows f v k).map fun r => (r.Attrition_Binary : ℚ))
                * 100)
          = 100 * ((groupRows f v k).map fun r => (r.Attrition_Binary : ℚ)).sum := by
      intro k hk
      have hpos : (0:ℚ) < ((groupRows f v k).length : ℚ) := by
        exact_mod_cast List.length_pos.mpr (groupRows_ne_nil hk)
      rw [meanQ, List.length_map]
      field_simp
      ring
    have hcover : ∀ r ∈ v, f r ∈ (v.map f).dedup :=
      fun r hr => List.mem_dedup.mpr (List.mem_map_of_mem f hr)
    have hpart := sum_groupRows_partition f
      (fun r => (r.Attrition_Binary : ℚ)) v ((v.map f).dedup)
      (List.nodup_dedup _) hcover
    have hkpi : (scalarKPIs v).attritionRate
        = some ((((v.filter (fun r => decide (r.Attrition = "Yes"))).length : ℚ)
                  / (v.length : ℚ)) * 100) := by
      simp [scalarKPIs, hlen]
    rw [hkpi, hmap, List.map_congr_left hterm, List.sum_map_mul_left, hpart,
      hcount]
    congr 1
    ring

/-- C5 witness: the example view is non-empty and its KPI attrition rate
is reconstructed by the Department-grouped weighted mean. -/
theorem rateBy_bounds_weighted_witness :
    filtered_df (load_data exampleTable) exampleCriteria ≠ [] ∧
    (scalarKPIs (filtered_df (load_data exampleTable) exampleCriteria)).attritionRate
      = some
          ((((rateBy (fun r => r.Department)
                (filtered_df (load_data exampleTable) exampleCriteria)).map
              (fun p =>
                ((groupRows (fun r => r.Department)
                    (filtered_df (load_data exampleTable) exampleCriteria)
                    p.1).length : ℚ) * p.2)).sum)
            / ((filtered_df (load_data exampleTable) exampleCriteria).length : ℚ)) :=
  ⟨by decide,
   (rateBy_bounds_weighted (fun r => r.Department) exampleTable exampleCriteria
      (by decide)).2⟩

theorem cutIntervals_eq :
    cutIntervals = [(0, 1, "<1"), (1, 3, "1-3"), (3, 5, "3-5"), (5, 10, "5-10"),
      (10, 15, "10-15"), (15, 20, "15-20"), (20, 30, "20-30"), (30, 40, "30+")] := by
  decide

/-- C6: the binning transform assigns each YearsAtCompany value to exactly
the half-open bin containing it, with the eight labels of app.py line 314,
and a value outside all eight bins (negative or ≥ 40) gets no bin, so its
row is absent from the rows the binned grouping aggregates. -/
theorem pdCutYears_spec :
    (∀ y : Int,
      (pdCutYears y = some "<1" ↔ 0 ≤ y ∧ y < 1) ∧
      (pdCutYears y = some "1-3" ↔ 1 ≤ y ∧ y < 3) ∧
      (pdCutYears y = some "3-5" ↔ 3 ≤ y ∧ y < 5) ∧
      (pdCutYears y = some "5-10" ↔ 5 ≤ y ∧ y < 10) ∧
      (pdCutYears y = some "10-15" ↔ 10 ≤ y ∧ y < 15) ∧
      (pdCutYears y = some "15-20" ↔ 15 ≤ y ∧ y < 20) ∧
      (pdCutYears y = some "20-30" ↔ 20 ≤ y ∧ y < 30) ∧
      (pdCutYears y = some "30+" ↔ 30 ≤ y ∧ y < 40) ∧
      (pdCutYears y = none ↔ y < 0 ∨ 40 ≤ y)) ∧
    (∀ (rows : List Row) (r : Row), pdCutYears r.YearsAtCompany = none →
      ∀ p ∈ binnedPairs rows (binColumnOf rows), p.2 ≠ r) := by
  constructor
  · intro y
    have hcase : y < 0 ∨ (0 ≤ y ∧ y < 1) ∨ (1 ≤ y ∧ y < 3) ∨ (3 ≤ y ∧ y < 5) ∨
        (5 ≤ y ∧ y < 10) ∨ (10 ≤ y ∧ y < 15) ∨ (15 ≤ y ∧ y < 20) ∨
        (20 ≤ y ∧ y < 30) ∨ (30 ≤ y ∧ y < 40) ∨ 40 ≤ y := by omega
    rcases hcase with h | h | h | h | h | h | h | h | h | h
    · have hlow : ¬(0 ≤ y) ∧ ¬(1 ≤ y) ∧ ¬(3 ≤ y) ∧ ¬(5 ≤ y) ∧ ¬(10 ≤ y) ∧
          ¬(15 ≤ y) ∧ ¬(20 ≤ y) ∧ ¬(30 ≤ y) := by omega
      have hc : pdCutYears y = none := by
        simp [pdCutYears, cutIntervals_eq, cutFind, hlow.1, hlow.2.1,
          hlow.2.2.1, hlow.2.2.2.1, hlow.2.2.2.2.1, hlow.2.2.2.2.2.1,
          hlow.2.2.2.2.2.2]
      rw [hc]; simp; omega
    · have hc : pdCutYears y = some "<1" := by
        simp [pdCutYears, cutIntervals_eq, cutFind, h.1, h.2]
      rw [hc]; simp; omega
    · have hc : pdCutYears y = some "1-3" := by
        have hp : ¬(y < 1) := by omega
        simp [pdCutYears, cutIntervals_eq, cutFind, hp, h.1, h.2]
      rw [hc]; simp; omega
    · have hc : pdCutYears y = some "3-5" := by
        have hp : ¬(y < 1) ∧ ¬(y < 3) := by omega
        simp [pdCutYears, cutIntervals_eq, cutFind, hp.1, hp.2, h.1, h.2]
      rw [hc]; simp; omega
    · have hc : pdCutYears y = some "5-10" := by
        have hp : ¬(y < 1) ∧ ¬(y < 3) ∧ ¬(y < 5) := by omega
        simp [pdCutYears, cutIntervals_eq, cutFind, hp.1, hp.2.1, hp.2.2,
          h.1, h.2]
      rw [hc]; simp; omega
    · have hc : pdCutYears y = some "10-15" := by
        have hp : ¬(y < 1) ∧ ¬(y < 3) ∧ ¬(y < 5) ∧ ¬(y < 10) := by omega
        simp [pdCutYears, cutIntervals_eq, cutFind, hp.1, hp.2.1, hp.2.2.1,
          hp.2.2.2, h.1, h.2]
      rw [hc]; simp; omega
    · have hc : pdCutYears y = some "15-20" := by
        have hp : ¬(y < 1) ∧ ¬(y < 3) ∧ ¬(y < 5) ∧ ¬(y < 10) ∧ ¬(y < 15) := by
          omega
        simp [pdCutYears, cutIntervals_eq, cutFind, hp.1, hp.2.1, hp.2.2.1,
          hp.2.2.2.1, hp.2.2.2.2, h.1, h.2]
      rw [hc]; simp; omega
    · have hc : pdCutYears y = some "20-30" := by
        have hp : ¬(y < 1) ∧ ¬(y < 3) ∧ ¬(y < 5) ∧ ¬(y < 10) ∧ ¬(y < 15) ∧
            ¬(y < 20) := by omega
        simp [pdCutYears, cutIntervals_eq, cutFind, hp.1, hp.2.1, hp.2.2.1,
          hp.2.2.2.1, hp.2.2.2.2.1, hp.2.2.2.2.2, h.1, h.2]
      rw [hc]; simp; omega
    · have hc : pdCutYears y = some "30+" := by
        have hp : ¬(y < 1) ∧ ¬(y < 3) ∧ ¬(y < 5) ∧ ¬(y < 10) ∧ ¬(y < 15) ∧
            ¬(y < 20) ∧ ¬(y < 30) := by omega
        simp [pdCutYears, cutIntervals_eq, cutFind, hp.1, hp.2.1, hp.2.2.1,
          hp.2.2.2.1, hp.2.2.2.2.1, hp.2.2.2.2.2.1, hp.2.2.2.2.2.2, h.1, h.2]
      rw [hc]; simp; omega
    · have hc : pdCutYears y = none := by
        have hp : ¬(y < 1) ∧ ¬(y < 3) ∧ ¬(y < 5) ∧ ¬(y < 10) ∧ ¬(y < 15) ∧
            ¬(y < 20) ∧ ¬(y < 30) ∧ ¬(y < 40) := by omega
        simp [pdCutYears, cutIntervals_eq, cutFind, hp.1, hp.2.1, hp.2.2.1,
          hp.2.2.2.1, hp.2.2.2.2.1, hp.2.2.2.2.2.1, hp.2.2.2.2.2.2.1,
          hp.2.2.2.2.2.2.2]
      rw [hc]; simp; omega
  · intro rows r hnone p hp hpr
    rw [binnedPairs_binColumnOf, List.mem_filterMap] at hp
    obtain ⟨r2, -, heq⟩ := hp
    cases hcut : pdCutYears r2.YearsAtCompany with
    | none =>
        rw [hcut] at heq
        exact Option.noConfusion heq
    | some lab =>
        rw [hcut] at heq
        simp only [Option.map_some', Option.some.injEq] at heq
        rw [← heq] at hpr
        have h3 : r2 = r := hpr
        rw [h3, hnone] at hcut
        exact Option.noConfusion hcut

/-- C6 witness: the out-of-range value 40 maps to no bin and its row is
absent from the binned grouping's rows. -/
theorem pdCutYears_spec_witness :
    pdCutYears outRangeRow.YearsAtCompany = none ∧
    ∀ p ∈ binnedPairs [outRangeRow] (binColumnOf [outRangeRow]),
      p.2 ≠ outRangeRow :=
  ⟨by decide, pdCutYears_spec.2 [outRangeRow] outRangeRow (by decide)⟩

end EAdash
